import Mathlib

/-!
Verification development for the unbrowser HTTP client core.

Shallow embedding of the request executor, the client constructor, the
error-recovery table, and the incremental SSE event decoder from
`src/http-client.ts` and `src/errors.ts`, together with theorems settling
the behavioural claims about them.
-/

namespace Unbrowser

/- ============================================================
   Request executor: `UnbrowserClient.request` (http-client.ts 554-613)
   ============================================================ -/

/-- The non-retryable wire codes hard-coded in the catch branch
(http-client.ts line 595):
`['UNAUTHORIZED', 'FORBIDDEN', 'INVALID_REQUEST', 'INVALID_URL']`. -/
def nonRetryableCodes : List String :=
  ["UNAUTHORIZED", "FORBIDDEN", "INVALID_REQUEST", "INVALID_URL"]

/-- Outcome of one physical attempt by the boundary transport, as the
`try` block of `request` observes it.

* `envelope`: `fetch` and `response.json()` completed, producing a parsed
  envelope with `success`, optional `data` and optional
  `error.code`/`error.message` fields.
* `exn`: the attempt threw a non-`UnbrowserError` exception carrying
  `name` and `msg` (an abort surfaces as name `AbortError`; network and
  JSON-parse failures carry other names). The flag `byCallerAbort` records
  whether an `AbortError` came from the caller's own signal (`true`) or
  from the internal per-attempt timeout controller (`false`); the request
  loop below never reads this flag, because the source code inspects only
  `error.name`. -/
inductive Attempt (T : Type) where
  | envelope (success : Bool) (data : Option T) (error : Option (String × String))
  | exn (name : String) (msg : String) (byCallerAbort : Bool)

/-- An error propagated out of `request`: either an `UnbrowserError`
(code and message) thrown by the client itself, or a raw exception
rethrown as `lastError` at the end of the loop. -/
inductive Thrown where
  | unb (code : String) (msg : String)
  | raw (name : String) (msg : String)
deriving DecidableEq

/-- Observable result of running `request`: the value returned or the
error thrown, the number of physical attempts made, and the list of
backoff sleeps (in milliseconds) performed between attempts. -/
structure RunResult (T : Type) where
  outcome : Except Thrown (Option T)
  attemptsMade : Nat
  delays : List Nat

/-- The backoff sleep before the next attempt
(http-client.ts line 607): `Math.pow(2, attempt) * 1000`. -/
def backoffDelay (attempt : Nat) : Nat := 2 ^ attempt * 1000

/-- The retry loop of `request` (http-client.ts 565-612), iterating over
the remaining 1-based attempt indices. `last` is the accumulated
`lastError`, `made` the attempts performed so far, `ds` the sleeps
performed so far. On exhaustion it throws `lastError` or, if no attempt
ever ran, `UnbrowserError('UNKNOWN_ERROR', 'Request failed')`
(line 612). -/
def requestAux {T : Type} (t : Nat → Attempt T) :
    List Nat → Option Thrown → Nat → List Nat → RunResult T
  | [], lastErr, made, ds =>
    ⟨.error (lastErr.getD (.unb "UNKNOWN_ERROR" "Request failed")), made, ds⟩
  | a :: rest, _, made, ds =>
    match t a with
    | .envelope true data _ => ⟨.ok data, made + 1, ds⟩
    | .envelope false _ e =>
      let ce := e.getD ("UNKNOWN_ERROR", "Unknown error")
      if ce.1 ∈ nonRetryableCodes then ⟨.error (.unb ce.1 ce.2), made + 1, ds⟩
      else
        requestAux t rest (some (.unb ce.1 ce.2)) (made + 1)
          (if rest.isEmpty then ds else ds ++ [backoffDelay a])
    | .exn nm msg _ =>
      if nm = "AbortError" then
        ⟨.error (.unb "REQUEST_ABORTED" "Request was aborted"), made + 1, ds⟩
      else
        requestAux t rest (some (.raw nm msg)) (made + 1)
          (if rest.isEmpty then ds else ds ++ [backoffDelay a])

/-- `request` (http-client.ts 554-613): `attempts = retry ? maxRetries : 1`
(line 563), then the loop over attempts `1..attempts`. -/
def runRequest {T : Type} (t : Nat → Attempt T) (retry : Bool) (maxRetries : Nat) :
    RunResult T :=
  requestAux t (List.range' 1 (if retry then maxRetries else 1)) none 0 []

/- ============================================================
   Client constructor: `UnbrowserClient` (http-client.ts 535-549)
   ============================================================ -/

/-- The configuration object accepted by the constructor; `none` models a
JS `undefined` field. -/
structure UnbrowserConfig where
  apiKey : Option String
  baseUrl : Option String
  timeout : Option Nat
  retry : Option Bool
  maxRetries : Option Nat
deriving DecidableEq

/-- The private fields of a successfully constructed client. -/
structure ClientState where
  apiKey : String
  baseUrl : String
  timeout : Nat
  retry : Bool
  maxRetries : Nat
deriving DecidableEq

/-- JS truthiness test for an optional string: `undefined` and the empty
string are falsy. -/
def strFalsy : Option String → Bool
  | none => true
  | some s => s == ""

/-- JS `v || dflt` for an optional string value. -/
def jsOrString (v : Option String) (dflt : String) : String :=
  match v with
  | some s => if s = "" then dflt else s
  | none => dflt

/-- JS `v || dflt` for an optional numeric value (0 is falsy). -/
def jsOrNat (v : Option Nat) (dflt : Nat) : Nat :=
  match v with
  | some n => if n = 0 then dflt else n
  | none => dflt

/-- `.replace(/\/$/, '')`: strip one trailing slash (http-client.ts 545). -/
def stripTrailingSlash (s : String) : String :=
  if s.data.getLastD ' ' = '/' then ⟨s.data.dropLast⟩ else s

/-- The constructor (http-client.ts 535-549): validates the API key, then
fills the defaults `baseUrl || 'https://api.unbrowser.ai'` (with one
trailing slash stripped), `timeout || 60000`, `retry !== false`, and
`maxRetries || 3`. -/
def mkClient (config : UnbrowserConfig) : Except (String × String) ClientState :=
  if strFalsy config.apiKey then
    .error ("MISSING_API_KEY", "apiKey is required")
  else if "ub_".data.isPrefixOf (config.apiKey.getD "").data then
    .ok { apiKey := config.apiKey.getD ""
          baseUrl := stripTrailingSlash (jsOrString config.baseUrl "https://api.unbrowser.ai")
          timeout := jsOrNat config.timeout 60000
          retry := config.retry != some false
          maxRetries := jsOrNat config.maxRetries 3 }
  else
    .error ("INVALID_API_KEY", "Invalid API key format")

/- ============================================================
   Error taxonomy and recovery table: errors.ts
   ============================================================ -/

/-- One authored entry of the `ERROR_RECOVERY` table (errors.ts 87-107):
the well-formed shape with `canRetry` and `suggestion` always present. -/
structure ErrorRecovery where
  canRetry : Bool
  retryAfter : Option Nat
  alternatives : Option (List String)
  suggestion : String
deriving DecidableEq

/-- The `ERROR_RECOVERY` record (errors.ts 116-271), keyed by the error
code string; `lookup` models the JS property access, which is defined
exactly on the declared keys. -/
def ERROR_RECOVERY : List (String × ErrorRecovery) := [
  ("MISSING_API_KEY", ⟨false, none, some ["Check environment variable UNBROWSER_API_KEY"],
    "Provide an API key in the config. Get one at https://unbrowser.ai/dashboard"⟩),
  ("INVALID_API_KEY", ⟨false, none, some ["Generate a new API key at https://unbrowser.ai/dashboard"],
    "API key must start with \"ub_live_\" (production) or \"ub_test_\" (testing)"⟩),
  ("EXPIRED_API_KEY", ⟨false, none, none,
    "Generate a new API key at https://unbrowser.ai/dashboard"⟩),
  ("UNAUTHORIZED", ⟨false, none, none,
    "Check that your API key is valid and has not been revoked"⟩),
  ("FORBIDDEN", ⟨false, none, some ["Upgrade plan at https://unbrowser.ai/pricing"],
    "Your plan may not have access to this feature. Check your plan limits."⟩),
  ("INVALID_REQUEST", ⟨false, none, none,
    "Check the request parameters against the API documentation"⟩),
  ("INVALID_URL", ⟨false, none, some ["Validate URL format before making request"],
    "Ensure the URL is valid and includes the protocol (https://)"⟩),
  ("URL_BLOCKED", ⟨false, none, none,
    "This URL is blocked for safety reasons. Use a different URL."⟩),
  ("TIMEOUT", ⟨true, some 5000, some ["Increase timeout option", "Use maxLatencyMs to skip slow tiers"],
    "Request timed out. Try again with a longer timeout or simpler page."⟩),
  ("REQUEST_ABORTED", ⟨true, none, none,
    "Request was cancelled. Retry if needed."⟩),
  ("RATE_LIMITED", ⟨true, some 60000, some ["Use batch() for multiple URLs", "Implement request queuing"],
    "Too many requests. Wait before retrying."⟩),
  ("QUOTA_EXCEEDED", ⟨false, none, some ["Check usage at https://unbrowser.ai/dashboard", "Upgrade plan"],
    "Monthly quota exceeded. Upgrade plan or wait for quota reset."⟩),
  ("CONTENT_NOT_FOUND", ⟨false, none, some ["Try the domain homepage", "Search for the content elsewhere"],
    "The page returned a 404 error. Check if the URL is correct."⟩),
  ("CONTENT_BLOCKED", ⟨true, some 30000, some ["Enable stealth mode", "Use a session", "Try a different time"],
    "Content was blocked by the target site. Try with different options."⟩),
  ("CAPTCHA_DETECTED", ⟨true, some 60000, some ["Use a session", "Reduce request frequency", "Enable stealth mode"],
    "CAPTCHA detected. The site may be rate-limiting requests."⟩),
  ("BOT_DETECTED", ⟨true, some 60000, some ["Use debug.visible to troubleshoot", "Try with slower request rate"],
    "Bot detection triggered. Try enabling stealth mode."⟩),
  ("NETWORK_ERROR", ⟨true, some 5000, none,
    "Network connection failed. Check internet connectivity."⟩),
  ("DNS_ERROR", ⟨true, some 5000, some ["Verify domain name spelling", "Try using IP address if known"],
    "DNS lookup failed. The domain may not exist or DNS may be down."⟩),
  ("SSL_ERROR", ⟨false, none, none,
    "SSL certificate error. The site may have an invalid certificate."⟩),
  ("CONNECTION_REFUSED", ⟨true, some 30000, none,
    "Connection refused. The server may be down or blocking requests."⟩),
  ("INTERNAL_ERROR", ⟨true, some 10000, none,
    "Internal server error. This is a temporary issue, please retry."⟩),
  ("SERVICE_UNAVAILABLE", ⟨true, some 30000, some ["Check https://status.unbrowser.ai for service status"],
    "Service temporarily unavailable. Please retry later."⟩),
  ("SSE_ERROR", ⟨true, some 5000, some ["Use browse() instead of browseWithProgress()"],
    "Server-sent events connection failed. Retry the request."⟩),
  ("HEALTH_CHECK_FAILED", ⟨true, some 30000, some ["Check https://status.unbrowser.ai for service status"],
    "Health check failed. The API may be experiencing issues."⟩),
  ("VERIFICATION_FAILED", ⟨true, none, some ["Try with verify.mode: \"thorough\"", "Use waitForSelector option"],
    "Content verification failed. The extracted content may be incomplete."⟩),
  ("CONTENT_MISMATCH", ⟨true, none, some ["Review the page structure", "Update selectors"],
    "Extracted content does not match expected format."⟩),
  ("UNKNOWN_ERROR", ⟨true, some 5000, some ["Check the error message for details", "Contact support if persistent"],
    "An unexpected error occurred. Please retry."⟩)]

/-- The `recovery` object actually attached to a constructed error
(errors.ts 350-353): built by object spread, so every field may be
absent when the code has no table entry. -/
structure RecoveryMerged where
  canRetry : Option Bool
  retryAfter : Option Nat
  alternatives : Option (List String)
  suggestion : Option String
deriving DecidableEq

/-- The spread `{...ERROR_RECOVERY[code]}`: spreading `undefined`
produces an object with no fields. -/
def spreadRecovery : Option ErrorRecovery → RecoveryMerged
  | some e => ⟨some e.canRetry, e.retryAfter, e.alternatives, some e.suggestion⟩
  | none => ⟨none, none, none, none⟩

/-- `{...base, ...custom}`: fields present in `custom` win. -/
def mergeRecovery (base custom : RecoveryMerged) : RecoveryMerged :=
  ⟨custom.canRetry <|> base.canRetry, custom.retryAfter <|> base.retryAfter,
   custom.alternatives <|> base.alternatives, custom.suggestion <|> base.suggestion⟩

/-- An absent `customRecovery` option. -/
def emptyRecovery : RecoveryMerged := ⟨none, none, none, none⟩

/-- The structured error of errors.ts (class `UnbrowserError`,
errors.ts 304-357): raw code string, message, optional HTTP status, and
the merged recovery object computed in the constructor (line 350-353). -/
structure UnbrowserError where
  code : String
  message : String
  statusCode : Option Nat
  recovery : RecoveryMerged
deriving DecidableEq

/-- The errors.ts constructor body: `recovery = {...ERROR_RECOVERY[code],
...options?.customRecovery}`. -/
def mkUnbrowserError (code message : String) (statusCode : Option Nat)
    (customRecovery : RecoveryMerged) : UnbrowserError :=
  ⟨code, message, statusCode,
   mergeRecovery (spreadRecovery (ERROR_RECOVERY.lookup code)) customRecovery⟩

/-- `UnbrowserError.fromResponse` (errors.ts 368-378):
`code = (body?.error?.code as ErrorCode) || 'UNKNOWN_ERROR'` — a cast
plus JS `||`, so only an absent or empty code string is replaced;
`message = body?.error?.message || response.statusText || 'Request
failed'`. `bodyError` models `body?.error` flattened to its optional
`code` and `message` fields. -/
def fromResponse (status : Nat) (statusText : String)
    (bodyError : Option (Option String × Option String)) : UnbrowserError :=
  let code := match bodyError.bind Prod.fst with
    | some c => if c = "" then "UNKNOWN_ERROR" else c
    | none => "UNKNOWN_ERROR"
  let message := match bodyError.bind Prod.snd with
    | some m => if m = "" then (if statusText = "" then "Request failed" else statusText) else m
    | none => if statusText = "" then "Request failed" else statusText
  mkUnbrowserError code message (some status) emptyRecovery

/- ============================================================
   SSE stream decoder: `browseWithProgress` (http-client.ts 650-721)
   ============================================================ -/

/-- Parsed JSON values, as produced by the host `JSON.parse`. -/
inductive Json where
  | null
  | bool (b : Bool)
  | num (n : Int)
  | str (s : String)
  | arr (elems : List Json)
  | obj (fields : List (String × Json))

/-- JS property access `j.k` on a parsed JSON value: `undefined` (`none`)
unless `j` is an object with the field. -/
def Json.get (j : Json) (k : String) : Option Json :=
  match j with
  | .obj fields => fields.lookup k
  | _ => none

/-- JS falsiness of a JSON value: `null`, `false`, `0` and `""` are
falsy. -/
def Json.falsy : Json → Bool
  | .null => true
  | .bool b => !b
  | .num n => n == 0
  | .str s => s == ""
  | .arr _ => false
  | .obj _ => false

/-- JS `v || dflt` where `v` is a possibly-absent JSON value. -/
def jsOrJson (v : Option Json) (dflt : Json) : Json :=
  match v with
  | some j => if j.falsy then dflt else j
  | none => dflt

/-- The decoder's mutable state in `browseWithProgress` (http-client.ts
684-686): the carry-over `buffer` and the recorded terminal `result`
(the value of `data.data`, possibly `undefined`) and `error` (the code
and message given to `new UnbrowserError`). -/
structure SseState where
  buffer : List Char
  result : Option Json
  error : Option (Json × Json)

/-- The line prefix `'event: '`. -/
def eventPfx : List Char := "event: ".data

/-- The line prefix `'data: '`. -/
def dataPfx : List Char := "data: ".data

/-- JS `String.prototype.split('\n')`, over the character list. -/
def splitNl : List Char → List (List Char)
  | [] => [[]]
  | c :: rest =>
    if c = '\n' then [] :: splitNl rest
    else
      match splitNl rest with
      | [] => [[c]]
      | l :: ls => (c :: l) :: ls

/-- JS `String.prototype.trim()` over the character list. -/
def trimChars (l : List Char) : List Char :=
  ((l.dropWhile Char.isWhitespace).reverse.dropWhile Char.isWhitespace).reverse

/-- JS `Array.prototype.indexOf`: the index of the first element equal to
`x`. (JS yields `-1` on a miss; the decoder only ever searches for an
element of the array, so the miss value is never observed and is modelled
as the length.) -/
def jsIndexOf (l : List (List Char)) (x : List Char) : Nat :=
  match l with
  | [] => 0
  | a :: rest => if a = x then 0 else jsIndexOf rest x + 1

/-- `data.error?.code || 'BROWSE_ERROR'` (http-client.ts 710). -/
def sseErrCode (data : Json) : Json :=
  jsOrJson ((data.get "error").bind (fun e => Json.get e "code")) (.str "BROWSE_ERROR")

/-- `data.error?.message || 'Browse failed'` (http-client.ts 710). -/
def sseErrMsg (data : Json) : Json :=
  jsOrJson ((data.get "error").bind (fun e => Json.get e "message")) (.str "Browse failed")

/-- The body of the `for (const line of lines)` loop for one `line`
(http-client.ts 697-713), given the line that follows the first
occurrence of `line` in the batch (`next`, when in range). On a JSON
parse failure the whole call aborts, carrying the progress events
already delivered and the offending `data:` remainder. -/
def dispatchLine (parse : List Char → Option Json) (line : List Char)
    (next : Option (List Char)) (st : SseState) (evs : List Json) :
    Except (List Json × List Char) (SseState × List Json) :=
  if eventPfx.isPrefixOf line then
    match next with
    | some nx =>
      if dataPfx.isPrefixOf nx then
        match parse (nx.drop 6) with
        | none => .error (evs, nx.drop 6)
        | some data =>
          let ty := trimChars (line.drop 7)
          if ty = "progress".data then .ok (st, evs ++ [data])
          else if ty = "result".data then .ok ({ st with result := data.get "data" }, evs)
          else if ty = "error".data then
            .ok ({ st with error := some (sseErrCode data, sseErrMsg data) }, evs)
          else .ok (st, evs)
      else .ok (st, evs)
    | none => .ok (st, evs)
  else .ok (st, evs)

/-- The `for (const line of lines)` loop (http-client.ts 696-714): `all`
is the complete processed batch (in scope for `lines.indexOf(line)` and
`lines[dataLineIndex]`), the second argument the lines still to visit. -/
def processLines (parse : List Char → Option Json) (all : List (List Char)) :
    List (List Char) → SseState → List Json →
    Except (List Json × List Char) (SseState × List Json)
  | [], st, evs => .ok (st, evs)
  | line :: rest, st, evs =>
    let i := jsIndexOf all line
    match dispatchLine parse line
        (if i + 1 < all.length then some (all.getD (i + 1) []) else none) st evs with
    | .error e => .error e
    | .ok (st2, evs2) => processLines parse all rest st2 evs2

/-- One reader iteration of `browseWithProgress` (http-client.ts
692-715): append the decoded chunk to the buffer, split on `'\n'`, keep
the (possibly unterminated) final piece as the new buffer, and process
the complete lines. -/
def feed (parse : List Char → Option Json) (st : SseState) (chunk : List Char) :
    Except (List Json × List Char) (SseState × List Json) :=
  let ls := splitNl (st.buffer ++ chunk)
  processLines parse ls.dropLast ls.dropLast { st with buffer := ls.getLastD [] } []

/-- Drive the decoder over a list of chunks from the initial state,
accumulating the delivered progress events. -/
def runChunksAux (parse : List Char → Option Json) :
    List (List Char) → SseState → List Json →
    Except (List Json × List Char) (SseState × List Json)
  | [], st, evs => .ok (st, evs)
  | c :: cs, st, evs =>
    match feed parse st c with
    | .error (evs2, bad) => .error (evs ++ evs2, bad)
    | .ok (st2, evs2) => runChunksAux parse cs st2 (evs ++ evs2)

/-- Decode a whole stream delivered as the given chunks. -/
def runChunks (parse : List Char → Option Json) (chunks : List (List Char)) :
    Except (List Json × List Char) (SseState × List Json) :=
  runChunksAux parse chunks ⟨[], none, none⟩ []

/-- The terminal outcome of `browseWithProgress`. -/
inductive SseOutcome where
  | ok (r : Json)
  | errEvent (code msg : Json)
  | protocolFailure (code msg : String)

/-- The epilogue of `browseWithProgress` (http-client.ts 717-720):
`if (error) throw error; if (!result) throw new
UnbrowserError('SSE_ERROR', 'No result received'); return result;`. -/
def finish (st : SseState) : SseOutcome :=
  match st.error with
  | some (c, m) => .errEvent c m
  | none =>
    match st.result with
    | some r =>
      if r.falsy then .protocolFailure "SSE_ERROR" "No result received" else .ok r
    | none => .protocolFailure "SSE_ERROR" "No result received"

/-- Follows the spec's words for claim C7, for comparison with
`processLines`: pairing is strictly positional — an `event:` line is
paired with the line immediately following it in the batch. -/
def processLinesPositional (parse : List Char → Option Json) :
    List (List Char) → SseState → List Json →
    Except (List Json × List Char) (SseState × List Json)
  | [], st, evs => .ok (st, evs)
  | line :: rest, st, evs =>
    match dispatchLine parse line rest.head? st evs with
    | .error e => .error e
    | .ok (st2, evs2) => processLinesPositional parse rest st2 evs2

/- ============================================================
   Concrete fixtures for witnesses and counterexamples
   ============================================================ -/

/-- Transport whose every attempt fails with the retryable envelope code
`RATE_LIMITED`. -/
def alwaysRateLimited : Nat → Attempt Nat :=
  fun _ => .envelope false none (some ("RATE_LIMITED", "Too many requests"))

/-- Transport failing with `INVALID_API_KEY` on attempt 1 and succeeding
with data `7` afterwards. -/
def invalidKeyThenOk : Nat → Attempt Nat :=
  fun a => if a = 1 then .envelope false none (some ("INVALID_API_KEY", "Invalid API key"))
           else .envelope true (some 7) none

/-- Transport whose every attempt fails with the non-retryable envelope
code `INVALID_URL`. -/
def invalidUrlAlways : Nat → Attempt Nat :=
  fun _ => .envelope false none (some ("INVALID_URL", "Invalid URL"))

/-- Transport whose fetch rejects with an `AbortError` raised by the
internal per-attempt timeout controller (not by the caller's signal). -/
def internalTimeoutAbort : Nat → Attempt Nat :=
  fun _ => .exn "AbortError" "This operation was aborted" false

/-- Transport answering `success: true` with the `data` field absent. -/
def successNoData : Nat → Attempt Nat := fun _ => .envelope true none none

/-- A concrete stand-in for the host `JSON.parse`, defined on the few
JSON texts used by witnesses and counterexamples (`JSON.parse` is a host
builtin, not repository code; decoder theorems quantify over the parse
function wherever possible). -/
def jsonParseFix (s : List Char) : Option Json :=
  if s = "\x7b\"n\":1\x7d".data then some (.obj [("n", .num 1)])
  else if s = "\x7b\"n\":2\x7d".data then some (.obj [("n", .num 2)])
  else if s = "\x7b\"data\":\x7b\"ok\":true\x7d\x7d".data then
    some (.obj [("data", .obj [("ok", .bool true)])])
  else if s = "\x7b\"data\":false\x7d".data then
    some (.obj [("data", .bool false)])
  else none

/-- A processed batch containing two identical `event: progress` lines,
each followed by its own `data:` line. -/
def dupBatch : List (List Char) :=
  ["event: progress".data, "data: \x7b\"n\":1\x7d".data,
   "event: progress".data, "data: \x7b\"n\":2\x7d".data]

/- ============================================================
   Helper lemmas
   ============================================================ -/

/-- One loop step on an envelope failure with a retryable code and at
least one remaining attempt: record `lastError`, sleep the backoff, and
continue. -/
theorem requestAux_step_retryable {T : Type} (t : Nat → Attempt T) (a : Nat)
    (rest : List Nat) (hrest : rest.isEmpty = false) (lastE : Option Thrown)
    (made : Nat) (ds : List Nat) (d : Option T) (c m : String)
    (ht : t a = .envelope false d (some (c, m))) (hc : c ∉ nonRetryableCodes) :
    requestAux t (a :: rest) lastE made ds =
      requestAux t rest (some (.unb c m)) (made + 1) (ds ++ [backoffDelay a]) := by
  simp only [requestAux, ht]
  rw [if_neg (by simpa using hc), hrest]
  simp

/-- Running the retry loop over attempt indices `a..a+k` against a
transport whose every attempt fails with a retryable envelope error
performs all the attempts, sleeps the exponential backoff between
consecutive attempts, and ends carrying the last attempt's error. -/
theorem requestAux_all_retryable {T : Type} (t : Nat → Attempt T)
    (c m : Nat → String) (d : Nat → Option T)
    (hc : ∀ i, c i ∉ nonRetryableCodes)
    (ht : ∀ i, t i = .envelope false (d i) (some (c i, m i))) :
    ∀ (k a : Nat) (lastE : Option Thrown) (made : Nat) (ds : List Nat),
      requestAux t (List.range' a (k + 1)) lastE made ds =
        ⟨.error (.unb (c (a + k)) (m (a + k))), made + (k + 1),
         ds ++ (List.range' a k).map backoffDelay⟩ := by
  intro k
  induction k with
  | zero =>
    intro a lastE made ds
    rw [List.range'_succ]
    have h0 : List.range' (a + 1) 0 = [] := rfl
    rw [h0]
    simp only [requestAux, ht a]
    rw [if_neg (by simpa using hc a)]
    simp [requestAux]
  | succ k ih =>
    intro a lastE made ds
    rw [List.range'_succ]
    have hne : (List.range' (a + 1) (k + 1)).isEmpty = false := by
      rw [List.range'_succ]; rfl
    rw [requestAux_step_retryable t a _ hne lastE made ds (d a) (c a) (m a) (ht a) (hc a)]
    rw [ih (a + 1) (some (.unb (c a) (m a))) (made + 1) (ds ++ [backoffDelay a])]
    have h1 : a + 1 + k = a + (k + 1) := by omega
    have h2 : made + 1 + (k + 1) = made + (k + 1 + 1) := by omega
    rw [h1, h2, List.range'_succ, List.map_cons, List.append_assoc]
    rfl

/-- The attempt counter never decreases. -/
theorem requestAux_attempts_ge {T : Type} (t : Nat → Attempt T) :
    ∀ (as : List Nat) (lastE : Option Thrown) (made : Nat) (ds : List Nat),
      made ≤ (requestAux t as lastE made ds).attemptsMade := by
  intro as
  induction as with
  | nil => intro lastE made ds; simp [requestAux]
  | cons a rest ih =>
    intro lastE made ds
    simp only [requestAux]
    split
    · simp
    · split
      · simp
      · exact le_trans (Nat.le_succ made) (ih _ _ _)
    · split
      · simp
      · exact le_trans (Nat.le_succ made) (ih _ _ _)

/-- The loop performs at most one attempt per remaining index. -/
theorem requestAux_attempts_le {T : Type} (t : Nat → Attempt T) :
    ∀ (as : List Nat) (lastE : Option Thrown) (made : Nat) (ds : List Nat),
      (requestAux t as lastE made ds).attemptsMade ≤ made + as.length := by
  intro as
  induction as with
  | nil => intro lastE made ds; simp [requestAux]
  | cons a rest ih =>
    intro lastE made ds
    simp only [requestAux]
    split
    · simp
    · split
      · simp
      · exact le_trans (ih _ _ _) (by simp only [List.length_cons]; omega)
    · split
      · simp
      · exact le_trans (ih _ _ _) (by simp only [List.length_cons]; omega)

/-- With at least one remaining attempt index, the loop performs at
least one further attempt. -/
theorem requestAux_attempts_ge_one {T : Type} (t : Nat → Attempt T)
    (a : Nat) (rest : List Nat) (lastE : Option Thrown) (made : Nat) (ds : List Nat) :
    made + 1 ≤ (requestAux t (a :: rest) lastE made ds).attemptsMade := by
  simp only [requestAux]
  split
  · simp
  · split
    · simp
    · exact requestAux_attempts_ge t _ _ _ _
  · split
    · simp
    · exact requestAux_attempts_ge t _ _ _ _

/-- The constructed `maxRetries` (after `config.maxRetries || 3`) is
never zero. -/
theorem jsOrNat_pos (v : Option Nat) : 1 ≤ jsOrNat v 3 := by
  cases v with
  | none => simp [jsOrNat]
  | some n => cases n <;> simp [jsOrNat]

/-- JS `indexOf` finds the first occurrence: searching `done ++ x :: rest`
for an `x` that does not occur in `done` yields `done.length`. -/
theorem jsIndexOf_append_cons (done : List (List Char)) (x : List Char)
    (rest : List (List Char)) (h : x ∉ done) :
    jsIndexOf (done ++ x :: rest) x = done.length := by
  induction done with
  | nil => simp [jsIndexOf]
  | cons a dd ih =>
    have hne : a ≠ x := fun e => h (e ▸ List.mem_cons_self a dd)
    have ih2 := ih (fun hm => h (List.mem_cons_of_mem a hm))
    simp [jsIndexOf, hne, ih2]

/-- Reading the element after position `done.length` in
`done ++ x :: rest` reads the head of `rest`. -/
theorem getD_append_cons_succ (done : List (List Char)) (x : List Char)
    (rest : List (List Char)) :
    (done ++ x :: rest).getD (done.length + 1) [] = rest.getD 0 [] := by
  induction done with
  | nil => rfl
  | cons a dd ih => simpa [List.getD] using ih

/-- On a batch without duplicate lines, the source's `indexOf`-based
event/data pairing agrees with strictly positional pairing. -/
theorem processLines_positional_aux (parse : List Char → Option Json) :
    ∀ (rest done : List (List Char)) (st : SseState) (evs : List Json),
      (done ++ rest).Nodup →
      processLines parse (done ++ rest) rest st evs =
        processLinesPositional parse rest st evs := by
  intro rest
  induction rest with
  | nil => intro done st evs h; simp [processLines, processLinesPositional]
  | cons line rest2 ih =>
    intro done st evs h
    have hnotin : line ∉ done := by
      rw [List.nodup_append] at h
      exact fun hm => h.2.2 hm (List.mem_cons_self _ _)
    have hidx : jsIndexOf (done ++ line :: rest2) line = done.length :=
      jsIndexOf_append_cons done line rest2 hnotin
    simp only [processLines, processLinesPositional, hidx]
    have hnext :
        (if done.length + 1 < (done ++ line :: rest2).length
         then some ((done ++ line :: rest2).getD (done.length + 1) [])
         else none) = rest2.head? := by
      cases rest2 with
      | nil =>
        have hl : (done ++ [line]).length = done.length + 1 := by simp
        rw [if_neg (by rw [hl]; omega)]
        rfl
      | cons l2 rest3 =>
        have hl : (done ++ line :: l2 :: rest3).length
            = done.length + rest3.length + 2 := by simp; omega
        rw [if_pos (by rw [hl]; omega), getD_append_cons_succ]
        rfl
    rw [hnext]
    cases hD : dispatchLine parse line rest2.head? st evs with
    | error e => rfl
    | ok p =>
      obtain ⟨st2, evs2⟩ := p
      have hre : done ++ line :: rest2 = (done ++ [line]) ++ rest2 := by
        simp
      rw [hre]
      exact ih (done ++ [line]) st2 evs2 (by rw [← hre]; exact h)

/- ============================================================
   Claim C1
   ============================================================ -/

/-- C1, counterexample: the claim states the sleep before the next
attempt is `min(2^attempt * 1000, 30000)`, capped at 30000 ms. With a
retry-enabled policy of 6 attempts all failing with `RATE_LIMITED`, the
code sleeps `[2000, 4000, 8000, 16000, 32000]`: the fifth sleep is
32000 ms, where the claimed formula gives `min(2^5*1000, 30000) = 30000`
— there is no cap in the code (http-client.ts 607). -/
theorem c1_counterexample :
    (runRequest alwaysRateLimited true 6).delays = [2000, 4000, 8000, 16000, 32000]
    ∧ (List.range' 1 5).map (fun a => min (2 ^ a * 1000) 30000)
        = [2000, 4000, 8000, 16000, 30000]
    ∧ ([2000, 4000, 8000, 16000, 32000] : List Nat) ≠ [2000, 4000, 8000, 16000, 30000] :=
  ⟨rfl, rfl, by decide⟩

/-- C1, amended: for every retry-enabled policy with `maxAttempts ≥ 1`
and every transport whose attempts all fail with a retryable envelope
kind, `execute` performs exactly `maxAttempts` attempts, sleeping between
consecutive attempts for `delay = 2^attempt * 1000` ms — strictly
increasing but uncapped — and ultimately raises the last error's kind. -/
theorem c1_retry_backoff_uncapped (c m : String) (n : Nat) (hn : 1 ≤ n)
    (hc : c ∉ nonRetryableCodes) :
    runRequest (fun _ => Attempt.envelope false (none : Option Nat) (some (c, m))) true n
      = ⟨.error (.unb c m), n, (List.range' 1 (n - 1)).map backoffDelay⟩
    ∧ ((List.range' 1 (n - 1)).map backoffDelay).Pairwise (· < ·) := by
  obtain ⟨k, rfl⟩ : ∃ k, n = k + 1 := ⟨n - 1, by omega⟩
  constructor
  · have h := requestAux_all_retryable
      (fun _ => Attempt.envelope false (none : Option Nat) (some (c, m)))
      (fun _ => c) (fun _ => m) (fun _ => none) (fun _ => hc) (fun _ => rfl)
      k 1 none 0 []
    simpa [runRequest] using h
  · refine List.Pairwise.map backoffDelay (fun a b hab => ?_)
      (List.pairwise_lt_range' 1 (k + 1 - 1))
    have hp := Nat.pow_lt_pow_right (by norm_num : 1 < 2) hab
    simp only [backoffDelay]
    omega

/-- C1, witness: the amended theorem at the concrete retry-enabled policy
`maxAttempts = 6` against an always-`RATE_LIMITED` transport. -/
theorem c1_retry_backoff_uncapped_witness :
    runRequest (fun _ => Attempt.envelope false (none : Option Nat)
        (some ("RATE_LIMITED", "Too many requests"))) true 6
      = ⟨.error (.unb "RATE_LIMITED" "Too many requests"), 6,
         (List.range' 1 5).map backoffDelay⟩
    ∧ ((List.range' 1 5).map backoffDelay).Pairwise (· < ·) :=
  c1_retry_backoff_uncapped "RATE_LIMITED" "Too many requests" 6
    (by decide) (by decide)

/- ============================================================
   Claim C2
   ============================================================ -/

/-- C2, counterexample: the claim places `INVALID_API_KEY` in the
non-retryable set, so an attempt failing with it should raise immediately
with no further attempts and no delay. Against a transport failing with
`INVALID_API_KEY` on attempt 1 of 3 and succeeding on attempt 2, the code
instead performs a second attempt (after a 2000 ms backoff sleep) and
returns its data: only `UNAUTHORIZED`, `FORBIDDEN`, `INVALID_REQUEST` and
`INVALID_URL` short-circuit (http-client.ts 595). -/
theorem c2_counterexample :
    runRequest invalidKeyThenOk true 3 = ⟨.ok (some 7), 2, [2000]⟩
    ∧ (2 : Nat) ≠ 1 :=
  ⟨rfl, by decide⟩

/-- C2, amended: for every attempt that fails with an envelope error
whose code is in the hard-coded non-retryable set `{UNAUTHORIZED,
FORBIDDEN, INVALID_REQUEST, INVALID_URL}` (which does not include
`MISSING_API_KEY` or `INVALID_API_KEY`), `execute` raises that error
immediately, with no further attempts and no retry delay, regardless of
the remaining attempt budget. -/
theorem c2_nonretryable_immediate {T : Type} (t : Nat → Attempt T) (a : Nat)
    (rest : List Nat) (lastE : Option Thrown) (made : Nat) (ds : List Nat)
    (d : Option T) (c m : String)
    (ht : t a = .envelope false d (some (c, m))) (hc : c ∈ nonRetryableCodes) :
    requestAux t (a :: rest) lastE made ds = ⟨.error (.unb c m), made + 1, ds⟩ := by
  simp only [requestAux, ht]
  rw [if_pos (by simpa using hc)]
  rfl

/-- C2, witness: the amended theorem on attempt 1 with code `INVALID_URL`
and two attempts of remaining budget. -/
theorem c2_nonretryable_immediate_witness :
    requestAux invalidUrlAlways [1, 2, 3] none 0 []
      = ⟨.error (.unb "INVALID_URL" "Invalid URL"), 1, []⟩ :=
  c2_nonretryable_immediate invalidUrlAlways 1 [2, 3] none 0 [] none
    "INVALID_URL" "Invalid URL" rfl (by decide)

/- ============================================================
   Claim C3
   ============================================================ -/

/-- C3, divergence witness: an attempt terminated by the internal
per-attempt timeout rejects with an `AbortError` not caused by the
caller's signal (`byCallerAbort = false`); the code inspects only
`error.name === 'AbortError'` (http-client.ts 601) and therefore raises
`REQUEST_ABORTED` immediately without retry — it never surfaces the
internal timeout as kind `TIMEOUT`, contradicting the claim (and the
taxonomy in errors.ts, whose retryable `TIMEOUT` entry is never
produced by the executor). -/
theorem c3_internal_timeout_aborts_as_request_aborted :
    runRequest internalTimeoutAbort true 3
      = ⟨.error (.unb "REQUEST_ABORTED" "Request was aborted"), 1, []⟩ :=
  rfl

/- ============================================================
   Claim C4
   ============================================================ -/

/-- C4, counterexample: the claim says an envelope with `success: true`
but absent `data` is raised as a protocol error of the unknown kind, and
malformed JSON in an SSE `data:` line is propagated as a terminal error
of kind `SSE_ERROR`. In the code, the former returns the absent `data`
value as the request's result (no error is raised, http-client.ts 589),
and the latter propagates the raw `JSON.parse` exception — the decode
aborts on the offending remainder without constructing any
`UnbrowserError` (http-client.ts 703). -/
theorem c4_counterexample :
    runRequest successNoData true 3 = ⟨.ok none, 1, []⟩
    ∧ runChunks jsonParseFix ["event: result\ndata: \x7boops\n\n".data]
        = .error ([], "\x7boops".data) :=
  ⟨rfl, rfl⟩

/-- C4, amended: malformed server payloads are never silently dropped
with processing continuing, but neither are they normalised: an envelope
with `success == true` returns its `data` field unchanged — including an
absent `data`, which is returned as the absent value rather than raised
as an unknown-kind protocol error — and malformed JSON in an SSE `data:`
line aborts the stream by propagating the raw parse exception rather
than an error of kind `SSE_ERROR`. -/
theorem c4_malformed_payload_behaviour :
    (∀ (T : Type) (t : Nat → Attempt T) (a : Nat) (rest : List Nat)
        (lastE : Option Thrown) (made : Nat) (ds : List Nat)
        (d : Option T) (e : Option (String × String)),
        t a = .envelope true d e →
        requestAux t (a :: rest) lastE made ds = ⟨.ok d, made + 1, ds⟩)
    ∧ runChunks jsonParseFix ["event: result\ndata: \x7boops\n\n".data]
        = .error ([], "\x7boops".data) := by
  constructor
  · intro T t a rest lastE made ds d e ht
    simp [requestAux, ht]
  · rfl

/-- C4, witness: the first part of the amended theorem at the concrete
transport answering `success: true` with no `data` on attempt 1 of 3. -/
theorem c4_malformed_payload_behaviour_witness :
    requestAux successNoData [1, 2, 3] none 0 [] = ⟨.ok none, 1, []⟩ :=
  c4_malformed_payload_behaviour.1 Nat successNoData 1 [2, 3] none 0 [] none none rfl

/- ============================================================
   Claim C5
   ============================================================ -/

/-- C5, counterexample: two divergences from the claim. First, the
no-result failure message is `'No result received'` (http-client.ts 718),
not the claimed `"no result received"`. Second, the claim's "otherwise
the recorded result is returned" fails when the recorded value is
JS-falsy: a stream delivering a terminal `result` record whose
`data.data` is `false` records that result, yet the epilogue's
`if (!result)` check (line 718) raises `SSE_ERROR` instead of returning
it. -/
theorem c5_counterexample :
    finish ⟨[], none, none⟩ = .protocolFailure "SSE_ERROR" "No result received"
    ∧ "No result received" ≠ "no result received"
    ∧ runChunks jsonParseFix ["event: result\ndata: \x7b\"data\":false\x7d\n\n".data]
        = .ok (⟨[], some (Json.bool false), none⟩, [])
    ∧ finish ⟨[], some (Json.bool false), none⟩
        = .protocolFailure "SSE_ERROR" "No result received"
    ∧ SseOutcome.protocolFailure "SSE_ERROR" "No result received"
        ≠ .ok (Json.bool false) := by
  refine ⟨rfl, by decide, rfl, rfl, ?_⟩
  simp

/-- C5, amended: for every stream, once decoding ends the stream resolves
to exactly one terminal outcome — a recorded terminal error is raised in
preference to a recorded result; otherwise a recorded result is returned
when its value is JS-truthy, while a recorded but JS-falsy result is
treated by the `if (!result)` check exactly like a missing one; and if
neither a terminal error nor a JS-truthy result was recorded, an error of
kind `SSE_ERROR` with message `"No result received"` is raised; never
silently nothing. -/
theorem c5_terminal_resolution (parse : List Char → Option Json)
    (chunks : List (List Char)) (st : SseState) (evs : List Json)
    (_hrun : runChunks parse chunks = Except.ok (st, evs)) :
    (∀ c m, st.error = some (c, m) → finish st = .errEvent c m)
    ∧ (∀ r, st.error = none → st.result = some r → r.falsy = false → finish st = .ok r)
    ∧ (st.error = none → (st.result.map Json.falsy).getD true = true →
        finish st = .protocolFailure "SSE_ERROR" "No result received") := by
  refine ⟨?_, ?_, ?_⟩
  · intro c m he
    simp [finish, he]
  · intro r he hr hf
    simp [finish, he, hr, hf]
  · intro he hf
    cases hr : st.result with
    | none => simp [finish, he, hr]
    | some r =>
      rw [hr] at hf
      simp at hf
      simp [finish, he, hr, hf]

/-- C5, witness: the amended theorem on a concrete stream that closed
after a single progress event and no terminal record. -/
theorem c5_terminal_resolution_witness :
    finish ⟨[], none, none⟩ = .protocolFailure "SSE_ERROR" "No result received" :=
  (c5_terminal_resolution jsonParseFix
      ["event: progress\ndata: \x7b\"n\":1\x7d\n\n".data]
      ⟨[], none, none⟩ [Json.obj [("n", Json.num 1)]] rfl).2.2 rfl rfl

/- ============================================================
   Claim C6
   ============================================================ -/

/-- C6, counterexample: splitting the stream at the line boundary between
the `event: result` line and its `data:` line yields a different decode
than the unsplit record — the event line is processed in a batch where
its `data:` line has not arrived yet, so no result is recorded
(http-client.ts 701-702 pairs only within the current batch); decoding is
therefore not chunk-boundary-independent. -/
theorem c6_counterexample :
    runChunks jsonParseFix
        ["event: result\n".data, "data: \x7b\"data\":\x7b\"ok\":true\x7d\x7d\n\n".data]
      = .ok (⟨[], none, none⟩, [])
    ∧ runChunks jsonParseFix
        ["event: result\ndata: \x7b\"data\":\x7b\"ok\":true\x7d\x7d\n\n".data]
      = .ok (⟨[], some (Json.obj [("ok", Json.bool true)]), none⟩, [])
    ∧ (Except.ok ((⟨[], none, none⟩ : SseState), ([] : List Json))
        ≠ (Except.ok (⟨[], some (Json.obj [("ok", Json.bool true)]), none⟩, [])
            : Except (List Json × List Char) (SseState × List Json))) := by
  refine ⟨rfl, rfl, ?_⟩
  simp

/-- C6, amended: the decoder tolerates a split falling in the middle of a
line — the spec's example record split mid-line across two feed calls
decodes identically, for every parse function, to the unsplit record —
but decoding is not independent of every chunk split: an `event:` line
and its `data:` line delivered in different batches dispatch no event. -/
theorem c6_midline_split_tolerated (parse : List Char → Option Json) :
    runChunks parse
        ["event: resu".data, "lt\ndata: \x7b\"data\":\x7b\"ok\":true\x7d\x7d\n\n".data]
      = runChunks parse ["event: result\ndata: \x7b\"data\":\x7b\"ok\":true\x7d\x7d\n\n".data] :=
  rfl

/- ============================================================
   Claim C7
   ============================================================ -/

/-- C7, counterexample: in a batch holding two identical `event: progress`
lines each followed by its own `data:` line, the code pairs the second
event line with the line after the *first* occurrence (`lines.indexOf`,
http-client.ts 701), dispatching the first payload twice — not the
immediately following `data:` line the claim requires. -/
theorem c7_counterexample :
    processLines jsonParseFix dupBatch dupBatch ⟨[], none, none⟩ []
      = .ok (⟨[], none, none⟩,
          [Json.obj [("n", Json.num 1)], Json.obj [("n", Json.num 1)]])
    ∧ processLinesPositional jsonParseFix dupBatch ⟨[], none, none⟩ []
      = .ok (⟨[], none, none⟩,
          [Json.obj [("n", Json.num 1)], Json.obj [("n", Json.num 2)]])
    ∧ ([Json.obj [("n", Json.num 1)], Json.obj [("n", Json.num 1)]]
        ≠ [Json.obj [("n", Json.num 1)], Json.obj [("n", Json.num 2)]]) := by
  refine ⟨rfl, rfl, ?_⟩
  simp

/-- C7, amended: pairing follows the first occurrence of an identical
`event:` line value; on every processed batch without duplicate lines
this coincides with strictly positional pairing — a complete `event: `
line is paired with the immediately following line if and only if that
line begins with `data: `, and a `data: ` line on its own dispatches
nothing. -/
theorem c7_positional_pairing_nodup (parse : List Char → Option Json)
    (batch : List (List Char)) (st : SseState) (evs : List Json)
    (h : batch.Nodup) :
    processLines parse batch batch st evs
      = processLinesPositional parse batch st evs :=
  processLines_positional_aux parse batch [] st evs (by simpa using h)

/-- C7, witness: the amended theorem on a concrete duplicate-free batch
holding one event/data pair and a blank line. -/
theorem c7_positional_pairing_nodup_witness :
    processLines jsonParseFix
        ["event: progress".data, "data: \x7b\"n\":1\x7d".data, "".data]
        ["event: progress".data, "data: \x7b\"n\":1\x7d".data, "".data]
        ⟨[], none, none⟩ []
      = processLinesPositional jsonParseFix
        ["event: progress".data, "data: \x7b\"n\":1\x7d".data, "".data]
        ⟨[], none, none⟩ [] :=
  c7_positional_pairing_nodup jsonParseFix _ _ _ (by decide)

/- ============================================================
   Claim C8
   ============================================================ -/

/-- C8, counterexample: for the unrecognized wire code
`TOTALLY_NEW_CODE`, `fromResponse` (errors.ts 368-378) carries the raw
string through unchanged — the `as ErrorCode` cast performs no runtime
classification and only a falsy code falls back to `UNKNOWN_ERROR` — and
the attached recovery object, spread from the undefined table entry, has
every field undefined: the code is outside the enumeration and no defined
RecoveryAdvice is attached. -/
theorem c8_counterexample :
    fromResponse 500 "Internal Server Error" (some (some "TOTALLY_NEW_CODE", some "boom"))
      = ⟨"TOTALLY_NEW_CODE", "boom", some 500, ⟨none, none, none, none⟩⟩
    ∧ ERROR_RECOVERY.lookup "TOTALLY_NEW_CODE" = none :=
  ⟨rfl, rfl⟩

/-- C8, amended: classification is not performed at runtime. A present,
non-empty error code is carried verbatim as the error's kind: codes in
the `ERROR_RECOVERY` enumeration receive that entry's full recovery
advice, while codes outside it keep their raw string and carry an empty
recovery object (every field undefined); only an absent code falls back
to `UNKNOWN_ERROR`. -/
theorem c8_code_passthrough :
    (∀ (s : Nat) (stx c m : String) (e : ErrorRecovery),
        ERROR_RECOVERY.lookup c = some e → c ≠ "" → m ≠ "" →
        fromResponse s stx (some (some c, some m))
          = ⟨c, m, some s, spreadRecovery (some e)⟩)
    ∧ (∀ (s : Nat) (stx : String), (fromResponse s stx none).code = "UNKNOWN_ERROR")
    ∧ (∀ (s : Nat) (stx c m : String),
        ERROR_RECOVERY.lookup c = none → c ≠ "" → m ≠ "" →
        fromResponse s stx (some (some c, some m)) = ⟨c, m, some s, emptyRecovery⟩) := by
  refine ⟨?_, ?_, ?_⟩
  · intro s stx c m e hl hc hm
    simp only [fromResponse, mkUnbrowserError, Option.bind]
    rw [if_neg hc, if_neg hm, hl]
    cases e
    simp [mergeRecovery, spreadRecovery, emptyRecovery]
  · intro s stx
    rfl
  · intro s stx c m hl hc hm
    simp only [fromResponse, mkUnbrowserError, Option.bind]
    rw [if_neg hc, if_neg hm, hl]
    simp [mergeRecovery, spreadRecovery, emptyRecovery]

/-- C8, witness: the amended theorem at the recognized code
`RATE_LIMITED` with a server-supplied message. -/
theorem c8_code_passthrough_witness :
    fromResponse 429 "Too Many Requests" (some (some "RATE_LIMITED", some "slow down"))
      = ⟨"RATE_LIMITED", "slow down", some 429,
         spreadRecovery (some ⟨true, some 60000,
           some ["Use batch() for multiple URLs", "Implement request queuing"],
           "Too many requests. Wait before retrying."⟩)⟩ :=
  c8_code_passthrough.1 429 "Too Many Requests" "RATE_LIMITED" "slow down"
    ⟨true, some 60000,
      some ["Use batch() for multiple URLs", "Implement request queuing"],
      "Too many requests. Wait before retrying."⟩
    rfl (by decide) (by decide)

/- ============================================================
   Claim C9
   ============================================================ -/

/-- C9, counterexample: the claim bounds the attempts by
`attempts = retry ? maxAttempts : 1` with a minimum of 1, so a configured
`maxAttempts` of 0 should allow at most `max (if retry then 0 else 1) 1
= 1` attempt. The constructor instead replaces a configured 0 by the
default 3 (`maxRetries || 3`, http-client.ts 548), and the executor then
performs 3 attempts. -/
theorem c9_counterexample :
    mkClient ⟨some "ub_x", none, none, none, some 0⟩
      = .ok ⟨"ub_x", "https://api.unbrowser.ai", 60000, true, 3⟩
    ∧ (runRequest alwaysRateLimited true 3).attemptsMade = 3
    ∧ (3 : Nat) ≠ max (if true then 0 else 1) 1 :=
  ⟨rfl, rfl, by decide⟩

/-- C9, amended: the number of physical attempts is bounded by
`attempts = retry ? maxRetries : 1` where `maxRetries` is the
*constructed* field (a configured `maxAttempts` of 0 or absent defaults
to 3, so the constructed value is at least 1): with `retry = false`
exactly one attempt is made regardless of outcome, and whenever at least
one attempt is budgeted, at least one attempt runs; each attempt consults
the boundary transport exactly once by construction of the loop. -/
theorem c9_attempt_bounds :
    (∀ (T : Type) (t : Nat → Attempt T) (mr : Nat),
        (runRequest t false mr).attemptsMade = 1)
    ∧ (∀ (cfg : UnbrowserConfig) (c : ClientState),
        mkClient cfg = .ok c → 1 ≤ c.maxRetries)
    ∧ (∀ (T : Type) (t : Nat → Attempt T) (retry : Bool) (mr : Nat), 1 ≤ mr →
        1 ≤ (runRequest t retry mr).attemptsMade
        ∧ (runRequest t retry mr).attemptsMade ≤ (if retry then mr else 1)) := by
  refine ⟨?_, ?_, ?_⟩
  · intro T t mr
    have h1 : List.range' 1 (if false then mr else 1) = [1] := rfl
    have hge := requestAux_attempts_ge_one t 1 [] none 0 []
    have hle := requestAux_attempts_le t [1] none 0 []
    simp only [runRequest, h1]
    simp only [List.length_cons, List.length_nil] at hle
    omega
  · intro cfg c h
    unfold mkClient at h
    split at h
    · exact absurd h (by simp)
    · split at h
      · injection h with h2
        rw [← h2]
        exact jsOrNat_pos _
      · exact absurd h (by simp)
  · intro T t retry mr hmr
    obtain ⟨k, rfl⟩ : ∃ j, mr = j + 1 := ⟨mr - 1, by omega⟩
    cases retry with
    | false =>
      have hge := requestAux_attempts_ge_one t 1 [] none 0 []
      have hle := requestAux_attempts_le t [1] none 0 []
      simp only [List.length_cons, List.length_nil] at hle
      constructor
      · show 1 ≤ (requestAux t [1] none 0 []).attemptsMade
        omega
      · show (requestAux t [1] none 0 []).attemptsMade ≤ 1
        omega
    | true =>
      have hge := requestAux_attempts_ge_one t 1 (List.range' 2 k) none 0 []
      have hle := requestAux_attempts_le t (1 :: List.range' 2 k) none 0 []
      simp only [List.length_cons, List.length_range'] at hle
      constructor
      · show 1 ≤ (requestAux t (1 :: List.range' 2 k) none 0 []).attemptsMade
        omega
      · show (requestAux t (1 :: List.range' 2 k) none 0 []).attemptsMade ≤ k + 1
        omega

/-- C9, witness: the amended theorem at a retry-disabled run, a
retry-enabled run with budget 3, and the client constructed with a
configured `maxRetries` of 0. -/
theorem c9_attempt_bounds_witness :
    (runRequest alwaysRateLimited false 5).attemptsMade = 1
    ∧ 1 ≤ (runRequest alwaysRateLimited true 3).attemptsMade
    ∧ (runRequest alwaysRateLimited true 3).attemptsMade ≤ (if true then 3 else 1)
    ∧ 1 ≤ (ClientState.mk "ub_x" "https://api.unbrowser.ai" 60000 true 3).maxRetries :=
  ⟨c9_attempt_bounds.1 Nat alwaysRateLimited 5,
   (c9_attempt_bounds.2.2 Nat alwaysRateLimited true 3 (by decide)).1,
   (c9_attempt_bounds.2.2 Nat alwaysRateLimited true 3 (by decide)).2,
   c9_attempt_bounds.2.1 ⟨some "ub_x", none, none, none, some 0⟩ _ rfl⟩

/- ============================================================
   Claim C10
   ============================================================ -/

/-- C10: client construction validates the API key at the public
interface — a missing or empty `apiKey` raises `MISSING_API_KEY`, an
`apiKey` not beginning with `ub_` raises `INVALID_API_KEY`, and every
`apiKey` beginning with `ub_` (including strings not matching
`ub_(live|test)_*`) is accepted and construction succeeds
(http-client.ts 535-549). -/
theorem c10_constructor_validation (cfg : UnbrowserConfig) :
    ((cfg.apiKey = none ∨ cfg.apiKey = some "") →
      mkClient cfg = .error ("MISSING_API_KEY", "apiKey is required"))
    ∧ (∀ k, cfg.apiKey = some k → k ≠ "" →
        ("ub_".data.isPrefixOf k.data) = false →
        mkClient cfg = .error ("INVALID_API_KEY", "Invalid API key format"))
    ∧ (∀ k, cfg.apiKey = some k → ("ub_".data.isPrefixOf k.data) = true →
        ∃ c, mkClient cfg = .ok c ∧ c.apiKey = k) := by
  refine ⟨?_, ?_, ?_⟩
  · intro h
    rcases h with h | h <;> simp [mkClient, strFalsy, h]
  · intro k hk hne hpre
    have hf : strFalsy (some k) = false := by simp [strFalsy, hne]
    simp [mkClient, hk, hf, hpre]
  · intro k hk hpre
    have hne : k ≠ "" := by
      intro h
      subst h
      exact absurd hpre (by decide)
    have hf : strFalsy (some k) = false := by simp [strFalsy, hne]
    refine ⟨⟨k, stripTrailingSlash (jsOrString cfg.baseUrl "https://api.unbrowser.ai"),
      jsOrNat cfg.timeout 60000, cfg.retry != some false,
      jsOrNat cfg.maxRetries 3⟩, ?_, rfl⟩
    simp [mkClient, hk, hf, hpre]

/-- C10, witness: the theorem at a missing key, a key with the wrong
prefix, and the accepted key `ub_zzz`, which does not match
`ub_(live|test)_*`. -/
theorem c10_constructor_validation_witness :
    mkClient ⟨none, none, none, none, none⟩
      = .error ("MISSING_API_KEY", "apiKey is required")
    ∧ mkClient ⟨some "sk_test_123", none, none, none, none⟩
      = .error ("INVALID_API_KEY", "Invalid API key format")
    ∧ ∃ c, mkClient ⟨some "ub_zzz", none, none, none, none⟩ = .ok c
        ∧ c.apiKey = "ub_zzz" :=
  ⟨(c10_constructor_validation _).1 (Or.inl rfl),
   (c10_constructor_validation _).2.1 "sk_test_123" rfl (by decide) (by decide),
   (c10_constructor_validation _).2.2 "ub_zzz" rfl (by decide)⟩

end Unbrowser
